import Mathlib

/-!
Shallow embedding of `crates/matrix-sdk-crypto/src/olm/account.rs`: the
device-identity account (`ReadOnlyAccount`), its upload planner, pickling,
and the Olm to-device decryption pipeline (`Account`).

The Olm cryptographic primitive (the `olm_rs` crate) and the crypto store
(`crate::store`) are outside the repository snapshot; they are modelled from
the spec as explicit state (for key management) and as behavioural oracles
(for session creation / ratchet decryption), while every control-flow
decision of `account.rs` itself is translated from the source.
-/

/-- Minimal JSON value model, used for decrypted Olm plaintexts. -/
inductive Json where
  | str (s : String)
  | obj (fields : List (String × Json))
  | null

/-- A JSON string, or nothing (mirrors serde's typed field extraction). -/
def Json.asString : Json → Option String
  | .str s => some s
  | _ => none

/-- Field lookup on a JSON object; fails on non-objects. -/
def Json.getField : Json → String → Option Json
  | .obj fields, key => fields.lookup key
  | _, _ => none

/-- Public identity keys of a device (`olm_rs::account::IdentityKeys`). -/
structure IdentityKeys where
  curve25519 : String
  ed25519 : String
deriving DecidableEq, Repr

/-- The two Olm wire message types (`olm_rs::session::OlmMessage`):
type 0 is a pre-key message, type 1 a normal ratchet message. -/
inductive OlmMessage where
  | preKey (body : String)
  | message (body : String)
deriving DecidableEq, Repr

/-- Event-level errors of `crate::error::EventError` that this file can
produce. -/
inductive EventError where
  | unsupportedOlmType (t : Nat)
  | missingCiphertext
  | unsupportedAlgorithm
  | mismatchedSender (found expected : String)
  | mismatchedKeys (ours theirs : String)
deriving DecidableEq, Repr

/-- Errors of `crate::error::OlmError` reachable from the decryption
pipeline.  `json` stands for the `serde_json::Error` conversion, and
`olmPrimitive` for a ratchet-level decryption failure surfaced via `?`. -/
inductive OlmError where
  | sessionWedged (user senderKey : String)
  | replayedMessage (user senderKey : String)
  | event (e : EventError)
  | json
  | olmPrimitive
  | store
deriving DecidableEq, Repr

/-- Modelled from the spec: the wrapped `olm_rs::account::OlmAccount` state.
One-time keys and the fallback key are represented by numeric key ids;
`oneTimeKeys` and `fallbackKey` hold the *unpublished* keys (what
`parsed_one_time_keys` / `parsed_fallback_key` expose), and the
`published*` fields hold keys moved out by `mark_keys_as_published`. -/
structure OlmAccountState where
  identityKeys : IdentityKeys
  maxOneTimeKeys : Nat
  nextKeyId : Nat
  oneTimeKeys : List Nat
  fallbackKey : Option Nat
  publishedOneTimeKeys : List Nat
  publishedFallbackKey : Option Nat
deriving DecidableEq, Repr

/-- Modelled from the spec: `max_number_of_one_time_keys` is a constant of
the Olm library (the internal ring-buffer capacity; 100 in libolm). -/
def libolmMaxOneTimeKeys : Nat := 100

/-- Modelled from the spec: `OlmAccount::new` holds a fresh identity key
pair and no one-time or fallback keys. -/
def OlmAccountState.new (identityKeys : IdentityKeys) : OlmAccountState :=
  { identityKeys, maxOneTimeKeys := libolmMaxOneTimeKeys, nextKeyId := 0,
    oneTimeKeys := [], fallbackKey := none,
    publishedOneTimeKeys := [], publishedFallbackKey := none }

/-- Modelled from the spec: `OlmAccount::generate_one_time_keys` appends
`count` fresh unpublished one-time keys. -/
def OlmAccountState.generateOneTimeKeys (s : OlmAccountState) (count : Nat) :
    OlmAccountState :=
  { s with
    oneTimeKeys := s.oneTimeKeys ++ (List.range count).map (fun i => s.nextKeyId + i),
    nextKeyId := s.nextKeyId + count }

/-- Modelled from the spec: `OlmAccount::generate_fallback_key` installs a
fresh unpublished fallback key. -/
def OlmAccountState.generateFallbackKey (s : OlmAccountState) : OlmAccountState :=
  { s with fallbackKey := some s.nextKeyId, nextKeyId := s.nextKeyId + 1 }

/-- Modelled from the spec: `OlmAccount::mark_keys_as_published` moves the
unpublished one-time and fallback keys into the published pool. -/
def OlmAccountState.markKeysAsPublished (s : OlmAccountState) : OlmAccountState :=
  { s with
    oneTimeKeys := [],
    publishedOneTimeKeys := s.publishedOneTimeKeys ++ s.oneTimeKeys,
    fallbackKey := none,
    publishedFallbackKey :=
      match s.fallbackKey with
      | some k => some k
      | none => s.publishedFallbackKey }

/-- `olm_rs::PicklingMode`. -/
inductive PicklingMode where
  | unencrypted
  | encrypted (key : List Nat)
deriving DecidableEq, Repr

/-- Modelled from the spec: the opaque account pickle string round-trips
losslessly under a matching mode, so it is modelled as the state paired
with the mode that produced it. -/
structure AccountPickle where
  state : OlmAccountState
  mode : PicklingMode
deriving DecidableEq, Repr

/-- `olm_rs::errors::OlmAccountError` (only the unpickling case matters). -/
inductive OlmAccountError where
  | badAccountKey
deriving DecidableEq, Repr

/-- Modelled from the spec: `OlmAccount::pickle`. -/
def OlmAccountState.pickle (s : OlmAccountState) (mode : PicklingMode) : AccountPickle :=
  ⟨s, mode⟩

/-- Modelled from the spec: `OlmAccount::unpickle` restores the state when
the mode matches and fails otherwise. -/
def AccountPickle.unpickle (p : AccountPickle) (mode : PicklingMode) :
    Except OlmAccountError OlmAccountState :=
  if p.mode = mode then .ok p.state else .error .badAccountKey

/-- `ReadOnlyAccount`: user id, device id, the wrapped Olm account, the
`shared` flag and the server-reported signed one-time-key count.  The
cached `identity_keys` field of the Rust struct is recovered through the
`identity_keys` accessor below. -/
structure ReadOnlyAccount where
  userId : String
  deviceId : String
  olm : OlmAccountState
  shared : Bool
  uploadedSignedKeyCount : Nat
deriving DecidableEq, Repr

/-- `ReadOnlyAccount::new`: fresh account, not shared, zero uploaded keys.
The randomly generated identity key pair is a parameter of the model. -/
def ReadOnlyAccount.new (userId deviceId : String) (identityKeys : IdentityKeys) :
    ReadOnlyAccount :=
  { userId, deviceId, olm := OlmAccountState.new identityKeys,
    shared := false, uploadedSignedKeyCount := 0 }

/-- `ReadOnlyAccount::identity_keys`. -/
def ReadOnlyAccount.identity_keys (a : ReadOnlyAccount) : IdentityKeys :=
  a.olm.identityKeys

/-- `ReadOnlyAccount::uploaded_key_count`. -/
def ReadOnlyAccount.uploaded_key_count (a : ReadOnlyAccount) : Nat :=
  a.uploadedSignedKeyCount

/-- `ReadOnlyAccount::update_uploaded_key_count`. -/
def ReadOnlyAccount.update_uploaded_key_count (a : ReadOnlyAccount) (newCount : Nat) :
    ReadOnlyAccount :=
  { a with uploadedSignedKeyCount := newCount }

/-- `ReadOnlyAccount::mark_as_shared`. -/
def ReadOnlyAccount.mark_as_shared (a : ReadOnlyAccount) : ReadOnlyAccount :=
  { a with shared := true }

/-- `ReadOnlyAccount::one_time_keys` (the unpublished one-time keys). -/
def ReadOnlyAccount.one_time_keys (a : ReadOnlyAccount) : List Nat :=
  a.olm.oneTimeKeys

/-- `ReadOnlyAccount::fallback_key` (the unpublished fallback key). -/
def ReadOnlyAccount.fallback_key (a : ReadOnlyAccount) : Option Nat :=
  a.olm.fallbackKey

/-- `ReadOnlyAccount::generate_one_time_keys_helper`. -/
def ReadOnlyAccount.generate_one_time_keys_helper (a : ReadOnlyAccount) (count : Nat) :
    ReadOnlyAccount :=
  { a with olm := a.olm.generateOneTimeKeys count }

/-- `ReadOnlyAccount::generate_fallback_key_helper`: generate a fallback
key only when none is currently unpublished. -/
def ReadOnlyAccount.generate_fallback_key_helper (a : ReadOnlyAccount) : ReadOnlyAccount :=
  if a.olm.fallbackKey.isNone then { a with olm := a.olm.generateFallbackKey } else a

/-- `ReadOnlyAccount::max_one_time_keys`. -/
def ReadOnlyAccount.max_one_time_keys (a : ReadOnlyAccount) : Nat :=
  a.olm.maxOneTimeKeys

/-- `ReadOnlyAccount::mark_keys_as_published`. -/
def ReadOnlyAccount.mark_keys_as_published (a : ReadOnlyAccount) : ReadOnlyAccount :=
  { a with olm := a.olm.markKeysAsPublished }

/-- The `DeviceKeyAlgorithm::SignedCurve25519` constant. -/
def signedCurve25519 : String := "signed_curve25519"

/-- `ReadOnlyAccount::update_key_counts`: update the uploaded count from
the `signed_curve25519` entry if present; if a fallback-algorithm list was
supplied and `signed_curve25519` is absent from it, generate a fallback key
unless one is already pending. -/
def ReadOnlyAccount.update_key_counts (a : ReadOnlyAccount)
    (oneTimeKeyCounts : List (String × Nat))
    (fallbackKeyCounts : Option (List String)) : ReadOnlyAccount :=
  let a :=
    match oneTimeKeyCounts.lookup signedCurve25519 with
    | some count => a.update_uploaded_key_count count
    | none => a
  match fallbackKeyCounts with
  | some unused =>
      if !(unused.contains signedCurve25519) then a.generate_fallback_key_helper else a
  | none => a

/-- `ReadOnlyAccount::generate_one_time_keys` (the planner): only generate
when no unpublished one-time keys exist; bail out with an error when the
server already holds at least `max/2` keys, otherwise top up to `max/2`. -/
def ReadOnlyAccount.generate_one_time_keys (a : ReadOnlyAccount) :
    ReadOnlyAccount × Except Unit Nat :=
  if a.one_time_keys.isEmpty then
    let count := a.uploaded_key_count
    let maxKeys := a.max_one_time_keys
    let maxOnServer := maxKeys / 2
    if count ≥ maxOnServer then (a, .error ())
    else
      let keyCount := maxOnServer - count
      (a.generate_one_time_keys_helper keyCount, .ok keyCount)
  else (a, .ok 0)

/-- `ReadOnlyAccount::should_upload_keys`. -/
def ReadOnlyAccount.should_upload_keys (a : ReadOnlyAccount) : Bool :=
  if !a.shared || a.fallback_key.isSome then true
  else
    let count := a.uploaded_key_count
    let maxKeys := a.max_one_time_keys
    if count > maxKeys / 2 then false
    else
      let keyCount := maxKeys / 2 - count
      decide (keyCount > 0)

/-- The signed device-key upload object (signatures elided; the claims
only inspect its presence). -/
structure DeviceKeys where
  userId : String
  deviceId : String
  curve25519 : String
  ed25519 : String
deriving DecidableEq, Repr

/-- `ReadOnlyAccount::device_keys`. -/
def ReadOnlyAccount.device_keys (a : ReadOnlyAccount) : DeviceKeys :=
  ⟨a.userId, a.deviceId, a.identity_keys.curve25519, a.identity_keys.ed25519⟩

/-- `ReadOnlyAccount::signed_one_time_keys_helper`: sign every unpublished
one-time key; the upload map is represented by its list of key ids. -/
def ReadOnlyAccount.signed_one_time_keys_helper (a : ReadOnlyAccount) : List Nat :=
  a.one_time_keys

/-- `ReadOnlyAccount::signed_one_time_keys`: generate, then sign. -/
def ReadOnlyAccount.signed_one_time_keys (a : ReadOnlyAccount) :
    ReadOnlyAccount × Except Unit (List Nat) :=
  let (a, r) := a.generate_one_time_keys
  match r with
  | .error () => (a, .error ())
  | .ok _ => (a, .ok a.signed_one_time_keys_helper)

/-- `ReadOnlyAccount::signed_fallback_keys`: a one-entry map when a
fallback key is pending, empty otherwise. -/
def ReadOnlyAccount.signed_fallback_keys (a : ReadOnlyAccount) : List Nat :=
  match a.fallback_key with
  | some k => [k]
  | none => []

/-- `ReadOnlyAccount::keys_for_upload`: `None` when nothing needs
uploading; otherwise device keys (only while unshared), the signed
one-time keys (empty when generation bailed out) and the signed fallback
keys. -/
def ReadOnlyAccount.keys_for_upload (a : ReadOnlyAccount) :
    ReadOnlyAccount × Option (Option DeviceKeys × List Nat × List Nat) :=
  if !a.should_upload_keys then (a, none)
  else
    let deviceKeys := if !a.shared then some a.device_keys else none
    let (a', r) := a.signed_one_time_keys
    let oneTimeKeys := match r with | .ok ks => ks | .error () => []
    let fallbackKeys := a'.signed_fallback_keys
    (a', some (deviceKeys, oneTimeKeys, fallbackKeys))

/-- `PickledAccount`. -/
structure PickledAccount where
  userId : String
  deviceId : String
  pickle : AccountPickle
  shared : Bool
  uploadedSignedKeyCount : Nat
deriving DecidableEq, Repr

/-- `ReadOnlyAccount::pickle`. -/
def ReadOnlyAccount.pickle (a : ReadOnlyAccount) (mode : PicklingMode) : PickledAccount :=
  ⟨a.userId, a.deviceId, a.olm.pickle mode, a.shared, a.uploadedSignedKeyCount⟩

/-- `ReadOnlyAccount::from_pickle`. -/
def ReadOnlyAccount.from_pickle (p : PickledAccount) (mode : PicklingMode) :
    Except OlmAccountError ReadOnlyAccount :=
  match p.pickle.unpickle mode with
  | .ok olm =>
      .ok { userId := p.userId, deviceId := p.deviceId, olm,
            shared := p.shared, uploadedSignedKeyCount := p.uploadedSignedKeyCount }
  | .error e => .error e

/-- The `PartialEq for ReadOnlyAccount` impl: identity-key equality
together with `shared` equality. -/
def ReadOnlyAccount.partialEq (a b : ReadOnlyAccount) : Bool :=
  a.identity_keys == b.identity_keys && a.shared == b.shared

/-- A signed one-time key of a peer (`crate::types::SignedKey`): the key
material and its fallback flag. -/
structure SignedKey where
  key : String
  fallback : Bool
deriving DecidableEq, Repr

/-- `olm_rs::errors::OlmSessionError` (collapsed to one case; only the
success/failure distinction is observable here). -/
inductive OlmSessionError where
  | creationFailed
deriving DecidableEq, Repr

/-- Modelled from the spec: the inner `olm_rs` session primitive,
represented by its observable behaviour — its id, its `matches` answer for
a (sender key, pre-key message body) pair, and its ratchet decryption
result (`none` = decryption failure).  `matches` is modelled as total:
its own failure mode (surfaced via `?` in the source) is a primitive
error outside the claims under study. -/
structure OlmInnerSession where
  sessionId : String
  matchesFn : String → String → Bool
  decryptFn : OlmMessage → Option Json

/-- The `Session` struct of `crate::olm::session`, as constructed by
`account.rs` (timestamps as naturals). -/
structure Session where
  userId : String
  deviceId : String
  ourIdentityKeys : IdentityKeys
  inner : OlmInnerSession
  sessionId : String
  senderKey : String
  createdUsingFallbackKey : Bool
  creationTime : Nat
  lastUseTime : Nat

/-- `Session::matches`, delegated to the inner primitive. -/
def Session.matchesFn (s : Session) (senderKey body : String) : Bool :=
  s.inner.matchesFn senderKey body

/-- `Session::decrypt`, delegated to the inner primitive. -/
def Session.decryptFn (s : Session) (m : OlmMessage) : Option Json :=
  s.inner.decryptFn m

/-- `ReadOnlyAccount::create_outbound_session_helper`: on primitive
success, wrap the inner session; `created_using_fallback_key` is taken
from the signed one-time key's fallback flag.  The primitive outcome is an
oracle parameter (`olm_rs` is outside the repository). -/
def ReadOnlyAccount.create_outbound_session_helper (a : ReadOnlyAccount)
    (theirIdentityKey : String) (theirOneTimeKey : SignedKey)
    (prim : Except OlmSessionError OlmInnerSession) (now : Nat) :
    Except OlmSessionError Session :=
  match prim with
  | .error e => .error e
  | .ok inner =>
      .ok { userId := a.userId, deviceId := a.deviceId,
            ourIdentityKeys := a.identity_keys, inner,
            sessionId := inner.sessionId, senderKey := theirIdentityKey,
            createdUsingFallbackKey := theirOneTimeKey.fallback,
            creationTime := now, lastUseTime := now }

/-- `ReadOnlyAccount::create_inbound_session`: on primitive success, wrap
the inner session with `created_using_fallback_key := false`.  The
primitive outcome is an oracle parameter; the matching one-time key
removal happens inside the primitive account and is not observable by the
claims. -/
def ReadOnlyAccount.create_inbound_session (a : ReadOnlyAccount)
    (theirIdentityKey : String) (messageBody : String)
    (prim : Except OlmSessionError OlmInnerSession) (now : Nat) :
    Except OlmSessionError Session :=
  match prim with
  | .error e => .error e
  | .ok inner =>
      .ok { userId := a.userId, deviceId := a.deviceId,
            ourIdentityKeys := a.identity_keys, inner,
            sessionId := inner.sessionId, senderKey := theirIdentityKey,
            createdUsingFallbackKey := false,
            creationTime := now, lastUseTime := now }

/-- A hash of a successfully decrypted Olm message (`OlmMessageHash`). -/
structure OlmMessageHash where
  senderKey : String
  hash : String
deriving BEq, DecidableEq, Repr

/-- Modelled from the spec: base64-rendered
`SHA-256(sender_key || message_type_byte || ciphertext)`; the hash
primitive is collision-free and is modelled as an injective encoding. -/
def shaEncode (senderKey : String) (messageType : Nat) (ciphertext : String) : String :=
  senderKey ++ ":" ++ Nat.repr messageType ++ ":" ++ ciphertext

/-- `OlmMessageHash::new`. -/
def OlmMessageHash.new (senderKey : String) (messageType : Nat) (ciphertext : String) :
    OlmMessageHash :=
  { senderKey, hash := shaEncode senderKey messageType ciphertext }

/-- A store write issued by the decryption pipeline: either
`save_changes` (account snapshot plus sessions) or `save_sessions`. -/
inductive StoreWrite where
  | saveChanges (account : Option ReadOnlyAccount) (sessions : List Session)
  | saveSessions (sessions : List Session)

/-- Modelled from the spec: the crypto store adapter (`crate::store`) —
the per-sender session cache, the persisted replay-hash set, and an
ordered log of the writes the pipeline issued. -/
structure StoreState where
  sessions : List (String × List Session)
  knownHashes : List OlmMessageHash
  writes : List StoreWrite

/-- `Store::get_sessions`: the cached session list for a sender key, or
`none` when the sender is unknown. -/
def StoreState.getSessions (store : StoreState) (senderKey : String) :
    Option (List Session) :=
  store.sessions.lookup senderKey

/-- The session list a probe iterates over (`none` behaves like the empty
list). -/
def StoreState.sessionsOrEmpty (store : StoreState) (senderKey : String) : List Session :=
  (store.getSessions senderKey).getD []

/-- `Store::save_changes`, recorded in the write log. -/
def StoreState.save_changes (store : StoreState) (account : Option ReadOnlyAccount)
    (sessions : List Session) : StoreState :=
  { store with writes := store.writes ++ [.saveChanges account sessions] }

/-- `Store::save_sessions`, recorded in the write log. -/
def StoreState.save_sessions (store : StoreState) (sessions : List Session) : StoreState :=
  { store with writes := store.writes ++ [.saveSessions sessions] }

/-- `Store::is_message_known`: membership in the persisted replay set. -/
def StoreState.is_message_known (store : StoreState) (hash : OlmMessageHash) : Bool :=
  store.knownHashes.contains hash

/-- The `Account` struct: the read-only account plus its store handle. -/
structure Account where
  inner : ReadOnlyAccount
  store : StoreState

/-- `SessionType`: was the decrypting session newly created or an
existing one? -/
inductive SessionType where
  | new (s : Session)
  | existing (s : Session)

/-- `OlmDecryptionInfo` (the fields the pipeline fills in). -/
structure OlmDecryptionInfo where
  sender : String
  session : SessionType
  messageHash : OlmMessageHash
  event : Json
  signingKey : String
  senderKey : String

/-- `Account::parse_message`: narrow the wire type to a byte, compute the
replay hash before any decryption attempt, then narrow to `{0,1}`. -/
def Account.parse_message (senderKey : String) (messageType : Nat) (ciphertext : String) :
    Except EventError (OlmMessage × OlmMessageHash) :=
  if messageType > 255 then .error (.unsupportedOlmType messageType)
  else
    let messageHash := OlmMessageHash.new senderKey messageType ciphertext
    match messageType with
    | 0 => .ok (.preKey ciphertext, messageHash)
    | 1 => .ok (.message ciphertext, messageHash)
    | _ => .error (.unsupportedOlmType messageType)

/-- The deserialized decrypted envelope (`DecryptedEvent` in
`parse_decrypted_to_device_event`): four mandatory identity fields. -/
structure DecryptedEvent where
  sender : String
  recipient : String
  recipientKeysEd25519 : String
  keysEd25519 : String
deriving DecidableEq, Repr

/-- Serde extraction of the envelope's required fields `sender`,
`recipient`, `recipient_keys.ed25519` and `keys.ed25519`; any missing or
ill-typed field fails. -/
def deserializeDecryptedEvent (j : Json) : Option DecryptedEvent :=
  ((j.getField "sender").bind Json.asString).bind fun sender =>
  ((j.getField "recipient").bind Json.asString).bind fun recipient =>
  (((j.getField "recipient_keys").bind (fun k => k.getField "ed25519")).bind
      Json.asString).bind fun recipientKeys =>
  (((j.getField "keys").bind (fun k => k.getField "ed25519")).bind
      Json.asString).map fun keys =>
  ⟨sender, recipient, recipientKeys, keys⟩

/-- `Account::parse_decrypted_to_device_event`: parse the plaintext, check
recipient, sender and recipient Ed25519 key in this order, and return the
plaintext together with the peer's asserted Ed25519 signing key. -/
def Account.parse_decrypted_to_device_event (a : Account) (sender : String)
    (plaintext : Json) : Except OlmError (Json × String) :=
  match deserializeDecryptedEvent plaintext with
  | none => .error .json
  | some event =>
    if event.recipient ≠ a.inner.userId then
      .error (.event (.mismatchedSender event.recipient a.inner.userId))
    else if event.sender ≠ sender then
      .error (.event (.mismatchedSender event.sender sender))
    else if a.inner.identity_keys.ed25519 ≠ event.recipientKeysEd25519 then
      .error (.event (.mismatchedKeys a.inner.identity_keys.ed25519
        event.recipientKeysEd25519))
    else
      .ok (plaintext, event.keysEd25519)

/-- The probe loop of `decrypt_with_existing_sessions`: for a pre-key
message skip sessions whose `matches` is false, and fail the whole
operation with `SessionWedged` when a matching session fails to decrypt;
for a normal message try every session and keep going on failure. -/
def tryExistingSessions (sender senderKey : String) (message : OlmMessage) :
    List Session → Except OlmError (Option (Session × Json))
  | [] => .ok none
  | session :: rest =>
    match message with
    | .preKey body =>
      if session.matchesFn senderKey body then
        match session.decryptFn (.preKey body) with
        | some plaintext => .ok (some (session, plaintext))
        | none => .error (.sessionWedged sender senderKey)
      else
        tryExistingSessions sender senderKey message rest
    | .message _ =>
      match session.decryptFn message with
      | some plaintext => .ok (some (session, plaintext))
      | none => tryExistingSessions sender senderKey message rest

/-- `Account::decrypt_with_existing_sessions`: return early when the store
has no session list for the sender, otherwise run the probe loop. -/
def Account.decrypt_with_existing_sessions (a : Account) (sender senderKey : String)
    (message : OlmMessage) : Except OlmError (Option (Session × Json)) :=
  match a.store.getSessions senderKey with
  | none => .ok none
  | some sessions => tryExistingSessions sender senderKey message sessions

/-- `Account::decrypt_olm_message`: probe existing sessions; on a miss, a
normal message wedges, a pre-key message creates an inbound session
(failure wedges), the fresh session decrypts, and the new session plus
account snapshot are persisted before the envelope check; on an envelope
failure after a successful decryption the session is persisted
(`save_changes` for a new one, `save_sessions` for an existing one)
before the error is surfaced. -/
def Account.decrypt_olm_message (a : Account)
    (createInbound : String → Except OlmSessionError OlmInnerSession) (now : Nat)
    (sender senderKey : String) (message : OlmMessage) :
    StoreState × Except OlmError (SessionType × Json × String) :=
  let attempt : Except OlmError (StoreState × SessionType × Json) :=
    match a.decrypt_with_existing_sessions sender senderKey message with
    | .error e => .error e
    | .ok (some (session, plaintext)) => .ok (a.store, .existing session, plaintext)
    | .ok none =>
      match message with
      | .message _ => .error (.sessionWedged sender senderKey)
      | .preKey body =>
        match a.inner.create_inbound_session senderKey body (createInbound body) now with
        | .error _ => .error (.sessionWedged sender senderKey)
        | .ok session =>
          match session.decryptFn (.preKey body) with
          | none => .error .olmPrimitive
          | some plaintext =>
            .ok (a.store.save_changes (some a.inner) [session], .new session, plaintext)
  match attempt with
  | .error e => (a.store, .error e)
  | .ok (store, sessionType, plaintext) =>
    match a.parse_decrypted_to_device_event sender plaintext with
    | .ok (event, signingKey) => (store, .ok (sessionType, event, signingKey))
    | .error e =>
      match sessionType with
      | .new s => (store.save_changes (some a.inner) [s], .error e)
      | .existing s => (store.save_sessions [s], .error e)

/-- The `type`/`body` entry of an Olm ciphertext map. -/
structure CiphertextInfo where
  messageType : Nat
  body : String
deriving DecidableEq, Repr

/-- `OlmV1Curve25519AesSha2Content`: the sender's Curve25519 key and the
ciphertext map keyed by recipient Curve25519 key. -/
structure OlmV1Content where
  senderKey : String
  ciphertext : List (String × CiphertextInfo)
deriving DecidableEq, Repr

/-- `Account::decrypt_olm_v1`: find our ciphertext, parse it (computing
the replay hash), decrypt, and reclassify a `SessionWedged` failure as
`ReplayedMessage` exactly when the hash is already known to the store. -/
def Account.decrypt_olm_v1 (a : Account)
    (createInbound : String → Except OlmSessionError OlmInnerSession) (now : Nat)
    (sender : String) (content : OlmV1Content) :
    StoreState × Except OlmError OlmDecryptionInfo :=
  match content.ciphertext.lookup a.inner.identity_keys.curve25519 with
  | none => (a.store, .error (.event .missingCiphertext))
  | some ciphertext =>
    match Account.parse_message content.senderKey ciphertext.messageType ciphertext.body with
    | .error e => (a.store, .error (.event e))
    | .ok (message, messageHash) =>
      let result := a.decrypt_olm_message createInbound now sender content.senderKey message
      match result.2 with
      | .ok (session, event, signingKey) =>
        (result.1, .ok { sender, session, messageHash, event, signingKey,
                         senderKey := content.senderKey })
      | .error (.sessionWedged userId senderKey) =>
        if result.1.is_message_known messageHash then
          (result.1, .error (.replayedMessage userId senderKey))
        else
          (result.1, .error (.sessionWedged userId senderKey))
      | .error e => (result.1, .error e)

/-- Sample identity keys for concrete evaluations. -/
def sampleIdentityKeys : IdentityKeys := ⟨"CV", "ED"⟩

/-- A fresh sample account (as built by `ReadOnlyAccount::new`). -/
def sampleAccount : ReadOnlyAccount :=
  ReadOnlyAccount.new "@alice:localhost" "DEVICEID" sampleIdentityKeys

/-- A shared account with no pending fallback key whose uploaded signed
key count sits exactly at `max_one_time_keys / 2`. -/
def halfCountAccount : ReadOnlyAccount :=
  { sampleAccount with shared := true, uploadedSignedKeyCount := 50 }

/-- C3 counterexample: on a shared account with no pending fallback key
and `uploaded_signed_key_count` exactly equal to `max_one_time_keys / 2`,
`should_upload_keys` returns `false`, while the claim asserts that
`uploaded_signed_key_count ≤ max_one_time_keys / 2` (and in particular
equality) yields `true`. -/
theorem should_upload_keys_false_at_exact_half :
    halfCountAccount.should_upload_keys = false
    ∧ halfCountAccount.shared = true
    ∧ halfCountAccount.fallback_key = none
    ∧ halfCountAccount.uploaded_key_count = halfCountAccount.max_one_time_keys / 2 := by
  decide

/-- C3 amended: `should_upload_keys` returns true iff `shared` is false,
or a fallback key is pending, or `uploaded_signed_key_count` is *strictly
less than* `max_one_time_keys / 2`. -/
theorem should_upload_keys_iff (a : ReadOnlyAccount) :
    a.should_upload_keys = true ↔
      (a.shared = false ∨ a.fallback_key.isSome = true
        ∨ a.uploaded_key_count < a.max_one_time_keys / 2) := by
  unfold ReadOnlyAccount.should_upload_keys
  rcases hs : a.shared <;> rcases hf : a.fallback_key.isSome <;> simp [hs, hf]
  omega

/-- C6 counterexample: on a fresh account the very first `keys_for_upload`
returns a *non-empty* one-time-key map (50 = `max_one_time_keys / 2` fresh
keys), while the claim asserts the map is empty. -/
theorem keys_for_upload_initial_one_time_keys_nonempty :
    sampleAccount.keys_for_upload.2.map (fun t => t.2.1) = some (List.range 50)
    ∧ List.range 50 ≠ ([] : List Nat) := by
  exact ⟨by decide, by decide⟩

/-- C6 amended: on a freshly created account the first `keys_for_upload`
returns `Some((Some(device_keys), M, {}))` where the fallback-key map is
empty and the one-time-key map `M` holds the `max_one_time_keys / 2`
freshly generated keys — it is non-empty, not empty as claimed. -/
theorem keys_for_upload_initial (userId deviceId : String) (ik : IdentityKeys) :
    (ReadOnlyAccount.new userId deviceId ik).keys_for_upload.2 =
      some (some (ReadOnlyAccount.new userId deviceId ik).device_keys,
        List.range (libolmMaxOneTimeKeys / 2), ([] : List Nat))
    ∧ List.range (libolmMaxOneTimeKeys / 2) ≠ ([] : List Nat) := by
  refine ⟨?_, by decide⟩
  simp only [ReadOnlyAccount.keys_for_upload, ReadOnlyAccount.should_upload_keys,
    ReadOnlyAccount.signed_one_time_keys, ReadOnlyAccount.generate_one_time_keys,
    ReadOnlyAccount.new, OlmAccountState.new, libolmMaxOneTimeKeys,
    ReadOnlyAccount.one_time_keys, ReadOnlyAccount.fallback_key,
    ReadOnlyAccount.uploaded_key_count, ReadOnlyAccount.max_one_time_keys,
    ReadOnlyAccount.generate_one_time_keys_helper, OlmAccountState.generateOneTimeKeys,
    ReadOnlyAccount.signed_one_time_keys_helper, ReadOnlyAccount.signed_fallback_keys,
    ReadOnlyAccount.device_keys, ReadOnlyAccount.identity_keys]
  norm_num

/-- C7: `update_key_counts` generates a new fallback key (observable as a
changed pending fallback key) iff a fallback-algorithm list was supplied,
`signed_curve25519` is absent from it, and no fallback key is currently
pending — independently of the one-time-key counts. -/
theorem update_key_counts_fallback_iff (a : ReadOnlyAccount)
    (oneTimeKeyCounts : List (String × Nat))
    (fallbackKeyCounts : Option (List String)) :
    (a.update_key_counts oneTimeKeyCounts fallbackKeyCounts).olm.fallbackKey
        ≠ a.olm.fallbackKey
      ↔ (∃ unused, fallbackKeyCounts = some unused
            ∧ unused.contains signedCurve25519 = false)
          ∧ a.olm.fallbackKey = none := by
  unfold ReadOnlyAccount.update_key_counts
  rcases hl : oneTimeKeyCounts.lookup signedCurve25519 with _ | n <;>
    rcases fallbackKeyCounts with _ | unused <;>
    simp only [ReadOnlyAccount.update_uploaded_key_count] <;>
    [skip; skip; skip; skip] <;> try simp
  · rcases hc : unused.contains signedCurve25519 <;>
      rcases hk : a.olm.fallbackKey with _ | k <;>
      simp [hc, hk, ReadOnlyAccount.generate_fallback_key_helper,
        OlmAccountState.generateFallbackKey] <;>
      simp_all
  · rcases hc : unused.contains signedCurve25519 <;>
      rcases hk : a.olm.fallbackKey with _ | k <;>
      simp [hc, hk, ReadOnlyAccount.generate_fallback_key_helper,
        OlmAccountState.generateFallbackKey] <;>
      simp_all

/-- C9: pickling and unpickling with the same mode succeeds and restores
an account equal to the original under the `PartialEq` notion (identity
keys and the `shared` flag), and the pickled record carries the user id,
device id and uploaded signed key count unchanged. -/
theorem pickle_roundtrip (a : ReadOnlyAccount) (mode : PicklingMode) :
    (∃ b, ReadOnlyAccount.from_pickle (a.pickle mode) mode = .ok b
        ∧ b.partialEq a = true)
    ∧ (a.pickle mode).userId = a.userId
    ∧ (a.pickle mode).deviceId = a.deviceId
    ∧ (a.pickle mode).uploadedSignedKeyCount = a.uploadedSignedKeyCount := by
  refine ⟨⟨a, ?_, ?_⟩, rfl, rfl, rfl⟩
  · simp [ReadOnlyAccount.from_pickle, ReadOnlyAccount.pickle,
      AccountPickle.unpickle, OlmAccountState.pickle]
  · simp [ReadOnlyAccount.partialEq]

/-- C10: every session built by `create_inbound_session` carries
`created_using_fallback_key = false`, while a session built by
`create_outbound_session_helper` carries the fallback flag of the signed
one-time key it consumed. -/
theorem created_using_fallback_key_flags (a : ReadOnlyAccount)
    (theirIdentityKey msgBody : String) (otk : SignedKey)
    (inner : OlmInnerSession) (now : Nat) :
    (a.create_inbound_session theirIdentityKey msgBody (.ok inner) now).map
        (fun s => s.createdUsingFallbackKey) = .ok false
    ∧ (a.create_outbound_session_helper theirIdentityKey otk (.ok inner) now).map
        (fun s => s.createdUsingFallbackKey) = .ok otk.fallback :=
  ⟨rfl, rfl⟩

/-- Generating one-time keys changes neither the `shared` flag, the
pending fallback key, the uploaded count, nor the capacity, so the upload
decision is unchanged. -/
theorem should_upload_keys_generate_helper (a : ReadOnlyAccount) (n : Nat) :
    (a.generate_one_time_keys_helper n).should_upload_keys = a.should_upload_keys := rfl

/-- A batch of freshly generated key ids is never empty when the batch
size is positive. -/
theorem range_map_isEmpty_false (base n : Nat) (h : n ≠ 0) :
    ((List.range n).map (fun i => base + i)).isEmpty = false := by
  cases n with
  | zero => exact absurd rfl h
  | succ m => rw [List.range_succ_eq_map]; rfl

/-- C8: calling `keys_for_upload` twice without `mark_keys_as_published`
in between yields the same set of one-time key ids: the second call does
not generate more keys while unpublished ones exist. -/
theorem keys_for_upload_one_time_key_idempotent (a : ReadOnlyAccount) :
    a.keys_for_upload.1.keys_for_upload.2.map (fun t => t.2.1)
      = a.keys_for_upload.2.map (fun t => t.2.1) := by
  by_cases hu : a.should_upload_keys = true
  · by_cases he : a.one_time_keys.isEmpty = true
    · by_cases hc : a.uploaded_key_count ≥ a.max_one_time_keys / 2
      · simp [ReadOnlyAccount.keys_for_upload, ReadOnlyAccount.signed_one_time_keys,
          ReadOnlyAccount.generate_one_time_keys, hu, he, hc]
      · have he' : a.one_time_keys = [] := by
          cases hx : a.one_time_keys with
          | nil => rfl
          | cons x xs => rw [hx] at he; exact absurd he (by simp)
        have hkc : a.max_one_time_keys / 2 - a.uploaded_key_count ≠ 0 := by omega
        have h2 : (a.generate_one_time_keys_helper
            (a.max_one_time_keys / 2 - a.uploaded_key_count)).one_time_keys.isEmpty
              = false := by
          simp only [ReadOnlyAccount.generate_one_time_keys_helper,
            OlmAccountState.generateOneTimeKeys, ReadOnlyAccount.one_time_keys] at he' ⊢
          rw [he', List.nil_append]
          exact range_map_isEmpty_false _ _ hkc
        simp [ReadOnlyAccount.keys_for_upload, ReadOnlyAccount.signed_one_time_keys,
          ReadOnlyAccount.generate_one_time_keys, hu, he, hc,
          should_upload_keys_generate_helper, h2]
    · simp [ReadOnlyAccount.keys_for_upload, ReadOnlyAccount.signed_one_time_keys,
        ReadOnlyAccount.generate_one_time_keys, hu, he]
  · simp [ReadOnlyAccount.keys_for_upload, hu]

/-- Follows the claim's words (C4): envelope verification parses the
plaintext as a JSON object with required fields `sender`, `recipient`,
`recipient_keys.ed25519` and `keys.ed25519` (a missing field is a
failure), then rejects, in this check order, a recipient different from
our user id, an inner sender different from the outer sender, and a
recipient Ed25519 key different from ours; otherwise it succeeds with the
asserted peer signing key `keys.ed25519`. -/
def envelopeVerificationSpec (ourUserId ourEd25519 outerSender : String)
    (plaintext : Json) : Except OlmError (Json × String) :=
  match (plaintext.getField "sender").bind Json.asString,
        (plaintext.getField "recipient").bind Json.asString,
        ((plaintext.getField "recipient_keys").bind
            (fun k => k.getField "ed25519")).bind Json.asString,
        ((plaintext.getField "keys").bind
            (fun k => k.getField "ed25519")).bind Json.asString with
  | some innerSender, some innerRecipient, some recipientEd25519, some peerEd25519 =>
    if innerRecipient ≠ ourUserId then
      .error (.event (.mismatchedSender innerRecipient ourUserId))
    else if innerSender ≠ outerSender then
      .error (.event (.mismatchedSender innerSender outerSender))
    else if ourEd25519 ≠ recipientEd25519 then
      .error (.event (.mismatchedKeys ourEd25519 recipientEd25519))
    else
      .ok (plaintext, peerEd25519)
  | _, _, _, _ => .error .json

/-- C4: `parse_decrypted_to_device_event` behaves exactly as the claim's
envelope-verification description. -/
theorem parse_decrypted_to_device_event_spec (a : Account) (sender : String)
    (plaintext : Json) :
    a.parse_decrypted_to_device_event sender plaintext =
      envelopeVerificationSpec a.inner.userId a.inner.identity_keys.ed25519
        sender plaintext := by
  unfold Account.parse_decrypted_to_device_event envelopeVerificationSpec
    deserializeDecryptedEvent
  rcases h1 : (plaintext.getField "sender").bind Json.asString with _ | s1 <;>
  rcases h2 : (plaintext.getField "recipient").bind Json.asString with _ | s2 <;>
  rcases h3 : ((plaintext.getField "recipient_keys").bind
      (fun k => k.getField "ed25519")).bind Json.asString with _ | s3 <;>
  rcases h4 : ((plaintext.getField "keys").bind
      (fun k => k.getField "ed25519")).bind Json.asString with _ | s4 <;>
  simp [h1, h2, h3, h4]

/-- The first session of the list whose `matches` answers true for the
given pre-key body (the only sessions the probe loop ever decrypts with on
a pre-key message). -/
def firstMatching (senderKey body : String) : List Session → Option Session
  | [] => none
  | s :: rest =>
    if s.matchesFn senderKey body then some s else firstMatching senderKey body rest

/-- The first session of the list that decrypts the message, with the
resulting plaintext. -/
def firstSuccess (message : OlmMessage) : List Session → Option (Session × Json)
  | [] => none
  | s :: rest =>
    match s.decryptFn message with
    | some p => some (s, p)
    | none => firstSuccess message rest

/-- On a pre-key message the probe loop decrypts with the first matching
session only: success adopts it, failure wedges, and no matching session
means no result. -/
theorem tryExistingSessions_preKey (sender senderKey body : String) (l : List Session) :
    tryExistingSessions sender senderKey (.preKey body) l =
      match firstMatching senderKey body l with
      | none => .ok none
      | some s =>
        match s.decryptFn (.preKey body) with
        | some p => .ok (some (s, p))
        | none => .error (.sessionWedged sender senderKey) := by
  induction l with
  | nil => rfl
  | cons s rest ih =>
    by_cases h : s.matchesFn senderKey body
    · simp [tryExistingSessions, firstMatching, h]
    · simp [tryExistingSessions, firstMatching, h, ih]

/-- On a normal message the probe loop returns the first decryption
success and never fails. -/
theorem tryExistingSessions_message (sender senderKey body : String) (l : List Session) :
    tryExistingSessions sender senderKey (.message body) l =
      .ok (firstSuccess (.message body) l) := by
  induction l with
  | nil => rfl
  | cons s rest ih =>
    cases h : s.decryptFn (.message body)
    · simp [tryExistingSessions, firstSuccess, h, ih]
    · simp [tryExistingSessions, firstSuccess, h]

/-- A missing session list behaves like an empty one. -/
theorem decrypt_with_existing_sessions_eq (a : Account) (sender senderKey : String)
    (message : OlmMessage) :
    a.decrypt_with_existing_sessions sender senderKey message =
      tryExistingSessions sender senderKey message (a.store.sessionsOrEmpty senderKey) := by
  unfold Account.decrypt_with_existing_sessions StoreState.sessionsOrEmpty
  cases h : a.store.getSessions senderKey
  · cases message <;> simp [h, tryExistingSessions]
  · simp [h]

/-- Envelope verification never produces a `SessionWedged` error. -/
theorem parse_decrypted_error_not_wedged (a : Account) (sender : String)
    (plaintext : Json) (e : OlmError) (u k : String)
    (h : a.parse_decrypted_to_device_event sender plaintext = .error e) :
    e ≠ .sessionWedged u k := by
  intro hw
  subst hw
  unfold Account.parse_decrypted_to_device_event at h
  split at h
  · simp at h
  · split_ifs at h <;> simp at h

/-- C1: before any replay reclassification, `decrypt_olm_message` fails
with `SessionWedged(sender, sender_key)` exactly when (a) the message is a
pre-key message and the first session whose `matches` check answered true
fails to decrypt, (b) the message is a normal message (type 1) and every
existing session fails to decrypt, or (c) the message is a pre-key
message, no session matches, and `create_inbound_session` fails; and
whenever it wedges no store write happens, so no new session is created or
persisted. -/
theorem decrypt_olm_message_sessionWedged_iff (a : Account)
    (createInbound : String → Except OlmSessionError OlmInnerSession) (now : Nat)
    (sender senderKey : String) (message : OlmMessage) :
    ((a.decrypt_olm_message createInbound now sender senderKey message).2
        = .error (.sessionWedged sender senderKey)
      ↔ ((∃ body s, message = .preKey body
            ∧ firstMatching senderKey body (a.store.sessionsOrEmpty senderKey) = some s
            ∧ s.decryptFn (.preKey body) = none)
        ∨ (∃ body, message = .message body
            ∧ firstSuccess (.message body) (a.store.sessionsOrEmpty senderKey) = none)
        ∨ (∃ body, message = .preKey body
            ∧ firstMatching senderKey body (a.store.sessionsOrEmpty senderKey) = none
            ∧ createInbound body = .error .creationFailed)))
    ∧ ((a.decrypt_olm_message createInbound now sender senderKey message).2
          = .error (.sessionWedged sender senderKey)
        → (a.decrypt_olm_message createInbound now sender senderKey message).1
            = a.store) := by
  have hdwe := decrypt_with_existing_sessions_eq a sender senderKey message
  cases message with
  | preKey body =>
    rw [tryExistingSessions_preKey] at hdwe
    unfold Account.decrypt_olm_message
    rw [hdwe]
    rcases hfm : firstMatching senderKey body (a.store.sessionsOrEmpty senderKey)
        with _ | s
    · -- no session matches: the inbound-creation path
      rcases hci : createInbound body with e | inner
      · -- primitive creation failed: wedged, store untouched
        cases e
        simp [ReadOnlyAccount.create_inbound_session, hfm, hci]
      · -- creation succeeded: either a primitive decryption error or the
        -- envelope path; never wedged
        simp only [ReadOnlyAccount.create_inbound_session]
        rcases hdec : inner.decryptFn (.preKey body) with _ | p
        · simp [Session.decryptFn, hdec, hfm, hci]
        · simp only [Session.decryptFn, hdec]
          rcases hp : a.parse_decrypted_to_device_event sender p with e' | res
          · have hne := parse_decrypted_error_not_wedged a sender p e' sender senderKey hp
            simp [Session.decryptFn, hdec, hp, hfm, hci, hne]
          · simp [Session.decryptFn, hdec, hp, hfm, hci]
    · -- a session matches: decrypt with it only
      rcases hdec : s.decryptFn (.preKey body) with _ | p
      · simp [hdec, hfm]
      · simp only [hdec]
        rcases hp : a.parse_decrypted_to_device_event sender p with e' | res
        · have hne := parse_decrypted_error_not_wedged a sender p e' sender senderKey hp
          simp [hp, hfm, hdec, hne]
        · simp [hp, hfm, hdec]
  | message body =>
    rw [tryExistingSessions_message] at hdwe
    unfold Account.decrypt_olm_message
    rw [hdwe]
    rcases hfs : firstSuccess (.message body) (a.store.sessionsOrEmpty senderKey)
        with _ | ⟨s, p⟩
    · simp [hfs]
    · rcases hp : a.parse_decrypted_to_device_event sender p with e' | res
      · have hne := parse_decrypted_error_not_wedged a sender p e' sender senderKey hp
        simp [hp, hfs, hne]
      · simp [hp, hfs]

/-- C2: when the decryption of a parsed Olm message fails with
`SessionWedged`, `decrypt_olm_v1` surfaces `ReplayedMessage` exactly when
the message hash (computed before any decryption attempt) is in the
persisted replay set, and `SessionWedged` unchanged otherwise; any error
other than `SessionWedged` is surfaced unchanged, never rewritten. -/
theorem decrypt_olm_v1_replay_reclassification (a : Account)
    (createInbound : String → Except OlmSessionError OlmInnerSession) (now : Nat)
    (sender : String) (content : OlmV1Content) (ct : CiphertextInfo)
    (message : OlmMessage) (messageHash : OlmMessageHash)
    (hct : content.ciphertext.lookup a.inner.identity_keys.curve25519 = some ct)
    (hparse : Account.parse_message content.senderKey ct.messageType ct.body
      = .ok (message, messageHash)) :
    (∀ u k, (a.decrypt_olm_message createInbound now sender content.senderKey message).2
        = .error (.sessionWedged u k) →
      (a.decrypt_olm_v1 createInbound now sender content).2 =
        (if (a.decrypt_olm_message createInbound now sender
              content.senderKey message).1.is_message_known messageHash
         then .error (.replayedMessage u k)
         else .error (.sessionWedged u k)))
    ∧ (∀ e, (a.decrypt_olm_message createInbound now sender content.senderKey message).2
          = .error e → (∀ u k, e ≠ .sessionWedged u k) →
        (a.decrypt_olm_v1 createInbound now sender content).2 = .error e) := by
  constructor
  · intro u k h
    unfold Account.decrypt_olm_v1
    simp only [hct, hparse]
    simp only [h]
    split <;> rfl
  · intro e he hne
    unfold Account.decrypt_olm_v1
    simp only [hct, hparse]
    cases e with
    | sessionWedged u k => exact absurd rfl (hne u k)
    | replayedMessage u k => simp only [he]
    | event e => simp only [he]
    | json => simp only [he]
    | olmPrimitive => simp only [he]
    | store => simp only [he]

/-- C5: whenever Olm decryption succeeds but envelope verification fails,
the session that produced the plaintext is persisted before the error is
surfaced: an existing session via `save_sessions`, a newly created session
(together with the account snapshot) via `save_changes`. -/
theorem decrypt_olm_message_persists_on_envelope_failure (a : Account)
    (createInbound : String → Except OlmSessionError OlmInnerSession) (now : Nat)
    (sender senderKey : String) (message : OlmMessage) :
    (∀ s p e,
        a.decrypt_with_existing_sessions sender senderKey message = .ok (some (s, p)) →
        a.parse_decrypted_to_device_event sender p = .error e →
        a.decrypt_olm_message createInbound now sender senderKey message
          = (a.store.save_sessions [s], .error e))
    ∧ (∀ body s p e, message = .preKey body →
        a.decrypt_with_existing_sessions sender senderKey message = .ok none →
        a.inner.create_inbound_session senderKey body (createInbound body) now = .ok s →
        s.decryptFn (.preKey body) = some p →
        a.parse_decrypted_to_device_event sender p = .error e →
        a.decrypt_olm_message createInbound now sender senderKey message
          = ((a.store.save_changes (some a.inner) [s]).save_changes (some a.inner) [s],
             .error e)) := by
  constructor
  · intro s p e h1 h2
    unfold Account.decrypt_olm_message
    simp only [h1, h2]
  · intro body s p e hm h1 h2 h3 h4
    subst hm
    unfold Account.decrypt_olm_message
    simp only [h1, h2, h3, h4]

/-- An inbound-session oracle whose primitive creation always fails. -/
def noInbound : String → Except OlmSessionError OlmInnerSession :=
  fun _ => .error .creationFailed

/-- A store with no sessions and no known hashes. -/
def emptyStore : StoreState := ⟨[], [], []⟩

/-- The sample account paired with the empty store. -/
def emptyAccount : Account := ⟨sampleAccount, emptyStore⟩

/-- Witness for C1: a normal message with no existing session wedges, and
the store is untouched. -/
theorem decrypt_olm_message_sessionWedged_iff_witness :
    (emptyAccount.decrypt_olm_message noInbound 0 "@bob:localhost" "K" (.message "ct")).2
        = .error (.sessionWedged "@bob:localhost" "K")
    ∧ (emptyAccount.decrypt_olm_message noInbound 0 "@bob:localhost" "K" (.message "ct")).1
        = emptyAccount.store := by
  have h := decrypt_olm_message_sessionWedged_iff emptyAccount noInbound 0
    "@bob:localhost" "K" (.message "ct")
  have hw : (emptyAccount.decrypt_olm_message noInbound 0 "@bob:localhost" "K"
      (.message "ct")).2 = .error (.sessionWedged "@bob:localhost" "K") :=
    h.1.mpr (Or.inr (Or.inl ⟨"ct", rfl, rfl⟩))
  exact ⟨hw, h.2 hw⟩

/-- The replay hash of a type-1 message with body `"ct"` from sender key
`"K"`. -/
def replayHash : OlmMessageHash := OlmMessageHash.new "K" 1 "ct"

/-- A store that already holds `replayHash` in its replay set. -/
def replayStore : StoreState := ⟨[], [replayHash], []⟩

/-- The sample account paired with `replayStore`. -/
def replayAccount : Account := ⟨sampleAccount, replayStore⟩

/-- An Olm v1 content whose ciphertext map addresses our sample Curve25519
key with a type-1 message. -/
def replayContent : OlmV1Content := ⟨"K", [("CV", ⟨1, "ct"⟩)]⟩

/-- Witness for C2: a wedged decryption whose hash is already known is
surfaced as `ReplayedMessage`. -/
theorem decrypt_olm_v1_replay_witness :
    (replayAccount.decrypt_olm_v1 noInbound 0 "@bob:localhost" replayContent).2
      = .error (.replayedMessage "@bob:localhost" "K") := by
  have h := (decrypt_olm_v1_replay_reclassification replayAccount noInbound 0
      "@bob:localhost" replayContent ⟨1, "ct"⟩ (.message "ct") replayHash rfl rfl).1
      "@bob:localhost" "K" rfl
  rw [h]
  rfl

/-- An inner session that matches everything and decrypts everything to
the empty JSON object (which fails envelope verification). -/
def plainInner : OlmInnerSession :=
  { sessionId := "S1", matchesFn := fun _ _ => true,
    decryptFn := fun _ => some (Json.obj []) }

/-- A cached session for sender key `"K"` built on `plainInner`. -/
def plainSession : Session :=
  { userId := "@alice:localhost", deviceId := "DEVICEID",
    ourIdentityKeys := sampleIdentityKeys, inner := plainInner,
    sessionId := "S1", senderKey := "K", createdUsingFallbackKey := false,
    creationTime := 0, lastUseTime := 0 }

/-- A store caching `plainSession` under sender key `"K"`. -/
def sessionStore : StoreState := ⟨[("K", [plainSession])], [], []⟩

/-- The sample account paired with `sessionStore`. -/
def sessionAccount : Account := ⟨sampleAccount, sessionStore⟩

/-- Witness for C5: an existing session decrypts to a plaintext that fails
envelope parsing, and the session is persisted via `save_sessions` before
the error is surfaced. -/
theorem decrypt_olm_message_persists_witness :
    sessionAccount.decrypt_olm_message noInbound 0 "@bob:localhost" "K" (.message "ct")
      = (sessionStore.save_sessions [plainSession], .error .json) :=
  (decrypt_olm_message_persists_on_envelope_failure sessionAccount noInbound 0
    "@bob:localhost" "K" (.message "ct")).1 plainSession (Json.obj []) .json rfl rfl
